import Mathlib

/-!
Verification of the ATB combat engine (characters.py, battle.py, ai.py).

The Python classes are embedded shallowly: `Character` and the battle state are
records of unbounded integers (Python `int`), mutating methods become functions
returning the updated record (paired with the Python return value), interactive
prompts and `random` draws become explicit oracle inputs, and the battle loop
becomes a fuel-style recursion over a list of per-iteration oracle inputs.
-/

namespace RpgEngine

/-- Embeds the `Character` class of characters.py: stats plus mutable battle
state (hp, mp, ATB gauge, optional elemental weakness). -/
structure Character where
  name : String
  max_hp : Int
  hp : Int
  max_mp : Int
  mp : Int
  strength : Int
  magic : Int
  speed : Int
  atb_gauge : Int
  weakness : Option String
  deriving Repr, DecidableEq

namespace Character

/-- `Character.__init__`: full health and mana, zero gauge, no weakness. -/
def init (name : String) (hp mp strength magic speed : Int) : Character :=
  { name := name, max_hp := hp, hp := hp, max_mp := mp, mp := mp,
    strength := strength, magic := magic, speed := speed,
    atb_gauge := 0, weakness := none }

/-- `Character.is_alive`: `self.hp > 0`. -/
def is_alive (c : Character) : Bool :=
  c.hp > 0

/-- `Character.take_damage`: `actual_damage = min(damage, self.hp)`;
`self.hp = max(0, self.hp - damage)`; returns `actual_damage`. -/
def take_damage (c : Character) (damage : Int) : Int × Character :=
  let actual_damage := min damage c.hp
  (actual_damage, { c with hp := max 0 (c.hp - damage) })

/-- `Character.heal`: `self.hp = min(self.max_hp, self.hp + amount)`;
returns `self.hp - old_hp`. -/
def heal (c : Character) (amount : Int) : Int × Character :=
  let new_hp := min c.max_hp (c.hp + amount)
  (new_hp - c.hp, { c with hp := new_hp })

/-- `Character.use_mp`: if `self.mp >= cost` deduct and return True,
else return False with no change. -/
def use_mp (c : Character) (cost : Int) : Bool × Character :=
  if c.mp ≥ cost then (true, { c with mp := c.mp - cost })
  else (false, c)

/-- `Character.restore_mp`: `self.mp = min(self.max_mp, self.mp + amount)`;
returns `self.mp - old_mp`. -/
def restore_mp (c : Character) (amount : Int) : Int × Character :=
  let new_mp := min c.max_mp (c.mp + amount)
  (new_mp - c.mp, { c with mp := new_mp })

/-- `Character.update_atb`: `self.atb_gauge += increment * self.speed`;
if the result is `>= 100`, clamp to 100 and return True, else return False. -/
def update_atb (c : Character) (increment : Int) : Bool × Character :=
  let g := c.atb_gauge + increment * c.speed
  if g ≥ 100 then (true, { c with atb_gauge := 100 })
  else (false, { c with atb_gauge := g })

/-- `Character.reset_atb`: `self.atb_gauge = 0`. -/
def reset_atb (c : Character) : Character :=
  { c with atb_gauge := 0 }

end Character

/-- The mutable-state invariant of the data model: health and mana within
`[0, max]`, gauge within `[0, 100]`. -/
def Inv (c : Character) : Prop :=
  0 ≤ c.hp ∧ c.hp ≤ c.max_hp ∧ 0 ≤ c.mp ∧ c.mp ≤ c.max_mp ∧
  0 ≤ c.atb_gauge ∧ c.atb_gauge ≤ 100

instance (c : Character) : Decidable (Inv c) := by
  unfold Inv; infer_instance

/-- Embeds the `Spell` class of characters.py. -/
structure Spell where
  name : String
  mp_cost : Int
  power : Int
  element : Option String
  deriving Repr, DecidableEq

/-- Python's `str.lower()` (the element tags are ASCII, where it agrees with
per-character ASCII lowercasing). -/
def strLower (s : String) : String :=
  String.mk (s.data.map Char.toLower)

/-- The Python truthiness-and-match condition of `Spell.calculate_damage`:
`self.element and target_weakness and self.element.lower() == target_weakness.lower()`
(an empty string is falsy in Python). -/
def weaknessMatch (element target_weakness : Option String) : Bool :=
  match element, target_weakness with
  | some e, some w => e ≠ "" && w ≠ "" && strLower e == strLower w
  | _, _ => false

/-- `Spell.calculate_damage`: `base = power + caster_magic * 2`, doubled when
the element matches the target's weakness (case-insensitive). -/
def Spell.calculate_damage (s : Spell) (caster_magic : Int)
    (target_weakness : Option String) : Int :=
  let base_damage := s.power + caster_magic * 2
  if weaknessMatch s.element target_weakness then base_damage * 2
  else base_damage

/-- Entry `"Fire"` of the `SPELLS` catalog. -/
def fireSpell : Spell := { name := "Fire", mp_cost := 10, power := 20, element := some "fire" }

/-- Entry `"Ice"` of the `SPELLS` catalog. -/
def blizzardSpell : Spell := { name := "Blizzard", mp_cost := 10, power := 20, element := some "ice" }

/-- Entry `"Thunder"` of the `SPELLS` catalog. -/
def thunderSpell : Spell := { name := "Thunder", mp_cost := 10, power := 20, element := some "thunder" }

/-- Entry `"Cure"` of the `SPELLS` catalog. -/
def cureSpell : Spell := { name := "Cure", mp_cost := 8, power := 30, element := some "healing" }

/-- The module-level `SPELLS` dict of characters.py, as a lookup by key. -/
def SPELLS (n : String) : Option Spell :=
  if n = "Fire" then some fireSpell
  else if n = "Ice" then some blizzardSpell
  else if n = "Thunder" then some thunderSpell
  else if n = "Cure" then some cureSpell
  else none

/-- `list(SPELLS.values())` in catalog order, as drawn by the enemy AI. -/
def spellValues : Fin 4 → Spell
  | 0 => fireSpell
  | 1 => blizzardSpell
  | 2 => thunderSpell
  | 3 => cureSpell

/-- The state owned by `Battle` in battle.py that affects combat logic:
the two characters and the iteration counter (the console and the
display-only battle log are omitted). -/
structure BattleState where
  player : Character
  enemy : Character
  turn_count : Int
  deriving Repr, DecidableEq

/-- The player's menu decision for one turn, as produced by
`get_action_choice` / `get_spell_choice`: attack, magic with an optional
spell key (`none` = cancelled), wait, or an unrecognized choice. -/
inductive PlayerAction where
  | attack
  | magic (spell_choice : Option String)
  | wait
  | invalid
  deriving Repr, DecidableEq

/-- One battle-loop iteration's oracle inputs: the player's decision, the
player's `random.randint(0, 5)` attack bonus, the enemy AI draws (whether
`random.random() < 0.7`, the `random.choice` spell index) and the enemy's
`random.randint(0, 5)` attack bonus. -/
structure TurnInput where
  pAct : PlayerAction
  pBonus : Int
  eRoll : Bool
  eSpellIdx : Fin 4
  eBonus : Int
  deriving Repr, DecidableEq

/-- `Battle.player_attack`: damage `strength + random bonus` applied to the
enemy (the returned success flag is always True). -/
def player_attack (bonus : Int) (st : BattleState) : BattleState :=
  let base_damage := st.player.strength + bonus
  { st with enemy := (st.enemy.take_damage base_damage).2 }

/-- `Battle.player_magic`: unknown spell or insufficient MP fail with no
further state change; a healing spell heals the player, otherwise the spell
damages the enemy via `calculate_damage`. Returns the success flag. -/
def player_magic (spell_name : String) (st : BattleState) : Bool × BattleState :=
  match SPELLS spell_name with
  | none => (false, st)
  | some spell =>
    match st.player.use_mp spell.mp_cost with
    | (false, _) => (false, st)
    | (true, p) =>
      let st := { st with player := p }
      if spell.element = some "healing" then
        (true, { st with player := (st.player.heal spell.power).2 })
      else
        let damage := spell.calculate_damage st.player.magic st.enemy.weakness
        (true, { st with enemy := (st.enemy.take_damage damage).2 })

/-- `Battle.enemy_turn`: with probability 0.7, or whenever `mp < 10`, a
physical attack `strength + bonus`; otherwise a uniformly drawn spell from
the catalog if affordable (healing spells heal the enemy, damaging spells hit
the player), falling back to a physical attack when MP is insufficient. -/
def enemy_turn (i : TurnInput) (st : BattleState) : BattleState :=
  if i.eRoll || decide (st.enemy.mp < 10) then
    { st with player := (st.player.take_damage (st.enemy.strength + i.eBonus)).2 }
  else
    let spell := spellValues i.eSpellIdx
    match st.enemy.use_mp spell.mp_cost with
    | (true, e) =>
      if spell.element = some "healing" then
        { st with enemy := (e.heal spell.power).2 }
      else
        let damage := spell.calculate_damage e.magic st.player.weakness
        { st with enemy := e, player := (st.player.take_damage damage).2 }
    | (false, _) =>
      { st with player := (st.player.take_damage (st.enemy.strength + i.eBonus)).2 }

/-- `Battle.execute_player_turn`: attack and wait consume the turn and reset
the player's gauge; magic consumes the turn only when a spell was chosen
(non-empty, per Python truthiness) and the cast succeeded; an invalid choice
consumes nothing. Returns whether the turn was executed. -/
def execute_player_turn (i : TurnInput) (st : BattleState) : Bool × BattleState :=
  match i.pAct with
  | .attack =>
    let st := player_attack i.pBonus st
    (true, { st with player := st.player.reset_atb })
  | .magic spell_choice =>
    match spell_choice with
    | some s =>
      if s = "" then (false, st)
      else
        match player_magic s st with
        | (true, st) => (true, { st with player := st.player.reset_atb })
        | (false, st) => (false, st)
    | none => (false, st)
  | .wait => (true, { st with player := st.player.reset_atb })
  | .invalid => (false, st)

/-- `Battle.execute_enemy_turn`: run the AI turn, then reset the enemy's
gauge. -/
def execute_enemy_turn (i : TurnInput) (st : BattleState) : BattleState :=
  let st := enemy_turn i st
  { st with enemy := st.enemy.reset_atb }

/-- One iteration of the `Battle.run` while-loop body: bump the counter, tick
both gauges (`update_atb_gauges` with the default increment 1), then dispatch
on readiness; when both are ready the higher speed acts first (player on
ties) and the second combatant acts only if it is still alive after the
first action; a failed player turn ends the iteration without the enemy
acting in the player-first branch. -/
def battle_step (i : TurnInput) (st : BattleState) : BattleState :=
  let st1 : BattleState :=
    { player := (st.player.update_atb 1).2,
      enemy := (st.enemy.update_atb 1).2,
      turn_count := st.turn_count + 1 }
  let player_ready := st1.player.atb_gauge ≥ 100
  let enemy_ready := st1.enemy.atb_gauge ≥ 100
  if player_ready ∧ enemy_ready then
    if st1.player.speed ≥ st1.enemy.speed then
      match execute_player_turn i st1 with
      | (false, st2) => st2
      | (true, st2) =>
        if ¬ st2.enemy.is_alive then st2
        else execute_enemy_turn i st2
    else
      let st2 := execute_enemy_turn i st1
      if ¬ st2.player.is_alive then st2
      else (execute_player_turn i st2).2
  else if player_ready then (execute_player_turn i st1).2
  else if enemy_ready then execute_enemy_turn i st1
  else st1

/-- `Battle.run`: iterate `battle_step` while both sides are alive, consuming
one oracle input per iteration; returns `none` when the supplied input list
is exhausted with the battle still running, otherwise `some` of the Python
return value (`player.is_alive()`) paired with the final state. -/
def battle_run : List TurnInput → BattleState → Option (Bool × BattleState)
  | [], st =>
    if st.player.is_alive && st.enemy.is_alive then none
    else some (st.player.is_alive, st)
  | i :: rest, st =>
    if st.player.is_alive && st.enemy.is_alive then
      battle_run rest (battle_step i st)
    else some (st.player.is_alive, st)

/-- The enemy descriptor shape produced by ai.py (the dictionary fields
of a fallback or generated enemy). -/
structure EnemyData where
  name : String
  description : String
  hp : Int
  mp : Int
  strength : Int
  magic : Int
  speed : Int
  weakness : String
  deriving Repr, DecidableEq

/-- A parsed API response before the required-field validation of
`generate_enemy`: each required field may be present or absent. -/
structure RawEnemyData where
  name : Option String
  description : Option String
  hp : Option Int
  mp : Option Int
  strength : Option Int
  magic : Option Int
  speed : Option Int
  weakness : Option String
  deriving Repr, DecidableEq

/-- The outcome of the external Gemini interaction in `generate_enemy`:
no API key (`initialize_gemini` returned None), an exception anywhere in the
request/parsing path, or a successfully parsed JSON object. -/
inductive ApiOutcome where
  | noModel
  | exn
  | parsed (d : RawEnemyData)
  deriving Repr, DecidableEq

/-- The `"Magitek Factory"` entry of the `fallback_enemies` dict in
`generate_enemy`. -/
def magitek_armor : EnemyData :=
  { name := "Magitek Armor",
    description := "A mechanical soldier powered by magical energy, its metal frame glows with an eerie blue light.",
    hp := 80, mp := 20, strength := 15, magic := 12, speed := 8,
    weakness := "thunder" }

/-- The `"Floating Continent"` entry of the `fallback_enemies` dict in
`generate_enemy`. -/
def sky_serpent : EnemyData :=
  { name := "Sky Serpent",
    description := "A winged serpent that rides the wind currents high above the clouds.",
    hp := 70, mp := 30, strength := 12, magic := 16, speed := 10,
    weakness := "ice" }

/-- The inline generic default descriptor of the no-API-key path of
`generate_enemy`. -/
def wild_beast : EnemyData :=
  { name := "Wild Beast",
    description := "A mysterious creature that lurks in the shadows.",
    hp := 60, mp := 15, strength := 14, magic := 10, speed := 9,
    weakness := "fire" }

/-- The `fallback_enemies` dict of `generate_enemy`, as a lookup by biome. -/
def fallback_enemies (biome : String) : Option EnemyData :=
  if biome = "Magitek Factory" then some magitek_armor
  else if biome = "Floating Continent" then some sky_serpent
  else none

/-- The required-field check of `generate_enemy`
(`all(field in enemy_data for field in required_fields)`), yielding the
validated descriptor when every field is present. -/
def validate_enemy (d : RawEnemyData) : Option EnemyData :=
  match d.name, d.description, d.hp, d.mp, d.strength, d.magic, d.speed, d.weakness with
  | some n, some de, some hp, some mp, some st, some mg, some sp, some w =>
    some { name := n, description := de, hp := hp, mp := mp,
           strength := st, magic := mg, speed := sp, weakness := w }
  | _, _, _, _, _, _, _, _ => none

/-- `generate_enemy` of ai.py, with the external interaction abstracted as an
`ApiOutcome`: without a model, `fallback_enemies.get(biome, wild_beast)`;
a validated response is returned as-is; missing fields or any exception yield
`fallback_enemies.get(biome, fallback_enemies["Magitek Factory"])`. -/
def generate_enemy (biome : String) (api : ApiOutcome) : EnemyData :=
  match api with
  | .noModel => (fallback_enemies biome).getD wild_beast
  | .exn => (fallback_enemies biome).getD magitek_armor
  | .parsed d =>
    match validate_enemy d with
    | some e => e
    | none => (fallback_enemies biome).getD magitek_armor

/-- Whether an `ApiOutcome` is a failure to obtain or validate a descriptor
(no key, exception, or missing required fields). -/
def api_failed : ApiOutcome → Bool
  | .noModel => true
  | .exn => true
  | .parsed d => (validate_enemy d).isNone

/-- A well-formed sample character (the player of main.py), used to
instantiate universally quantified theorems. -/
def testChar : Character := Character.init "Terra" 100 50 16 18 12

/-- C1: every state-mutating operation of `Character`, called with a
non-negative argument on a character satisfying the data-model invariant
(health and mana within `[0, max]`, gauge within `[0, 100]`; stats are
non-negative integers per the data model, used here for `speed`), preserves
that invariant. -/
theorem mutators_preserve_invariant (c : Character) (a : Int)
    (hInv : Inv c) (hspeed : 0 ≤ c.speed) (ha : 0 ≤ a) :
    Inv (c.take_damage a).2 ∧ Inv (c.heal a).2 ∧ Inv (c.use_mp a).2 ∧
    Inv (c.restore_mp a).2 ∧ Inv (c.update_atb a).2 ∧ Inv c.reset_atb := by
  obtain ⟨h1, h2, h3, h4, h5, h6⟩ := hInv
  have hmul : 0 ≤ a * c.speed := mul_nonneg ha hspeed
  refine ⟨?_, ?_, ?_, ?_, ?_, ?_⟩ <;>
    simp only [Inv, Character.take_damage, Character.heal, Character.use_mp,
      Character.restore_mp, Character.update_atb, Character.reset_atb] <;>
    (try split) <;> simp_all <;> omega

/-- Witness for C1 at a concrete character and argument. -/
theorem mutators_preserve_invariant_witness :
    Inv (testChar.take_damage 7).2 ∧ Inv (testChar.heal 7).2 ∧
    Inv (testChar.use_mp 7).2 ∧ Inv (testChar.restore_mp 7).2 ∧
    Inv (testChar.update_atb 7).2 ∧ Inv testChar.reset_atb :=
  mutators_preserve_invariant testChar 7 (by decide) (by decide) (by decide)

/-- C2: for a non-negative damage amount on a non-negative health,
`take_damage` removes exactly `min(amount, hp)` health, returns that amount,
never drives health below 0, and its subtract-then-clamp update coincides
with the clamp-then-subtract variant. -/
theorem take_damage_spec (c : Character) (damage : Int)
    (hd : 0 ≤ damage) (hhp : 0 ≤ c.hp) :
    (c.take_damage damage).1 = min damage c.hp ∧
    c.hp - (c.take_damage damage).2.hp = min damage c.hp ∧
    0 ≤ (c.take_damage damage).2.hp ∧
    (c.take_damage damage).2.hp = c.hp - min damage c.hp := by
  simp only [Character.take_damage]
  refine ⟨trivial, ?_, ?_, ?_⟩ <;> omega

/-- Witness for C2 at a concrete character and damage amount. -/
theorem take_damage_spec_witness :
    (testChar.take_damage 7).1 = min 7 testChar.hp ∧
    testChar.hp - (testChar.take_damage 7).2.hp = min 7 testChar.hp ∧
    0 ≤ (testChar.take_damage 7).2.hp ∧
    (testChar.take_damage 7).2.hp = testChar.hp - min 7 testChar.hp :=
  take_damage_spec testChar 7 (by decide) (by decide)

/-- C3: `use_mp(cost)` succeeds iff `mp ≥ cost` at call time; on success the
mana drops by exactly `cost` with all other fields unchanged; on failure the
character is unchanged. -/
theorem use_mp_spec (c : Character) (cost : Int) :
    ((c.use_mp cost).1 = true ↔ cost ≤ c.mp) ∧
    ((c.use_mp cost).1 = true → (c.use_mp cost).2 = { c with mp := c.mp - cost }) ∧
    ((c.use_mp cost).1 = false → (c.use_mp cost).2 = c) := by
  simp only [Character.use_mp]
  split <;> simp_all

/-- Witness for C3 at a concrete character and cost. -/
theorem use_mp_spec_witness :
    ((testChar.use_mp 7).1 = true ↔ 7 ≤ testChar.mp) ∧
    ((testChar.use_mp 7).1 = true →
      (testChar.use_mp 7).2 = { testChar with mp := testChar.mp - 7 }) ∧
    ((testChar.use_mp 7).1 = false → (testChar.use_mp 7).2 = testChar) :=
  use_mp_spec testChar 7

/-- C4: for a non-negative increment (and non-negative speed per the data
model) on a gauge not above its cap, `update_atb` adds `increment × speed`
when that does not reach 100, is monotonic non-decreasing, never leaves the
gauge above 100, and reports ready iff the pre-clamp value is at least
100. -/
theorem update_atb_spec (c : Character) (increment : Int)
    (hi : 0 ≤ increment) (hs : 0 ≤ c.speed) (hg : c.atb_gauge ≤ 100) :
    (c.atb_gauge + increment * c.speed < 100 →
      (c.update_atb increment).2.atb_gauge = c.atb_gauge + increment * c.speed) ∧
    c.atb_gauge ≤ (c.update_atb increment).2.atb_gauge ∧
    (c.update_atb increment).2.atb_gauge ≤ 100 ∧
    ((c.update_atb increment).1 = true ↔ 100 ≤ c.atb_gauge + increment * c.speed) := by
  have hmul : 0 ≤ increment * c.speed := mul_nonneg hi hs
  simp only [Character.update_atb]
  split <;> simp_all <;> omega

/-- Witness for C4 at a concrete character and increment. -/
theorem update_atb_spec_witness :
    (testChar.atb_gauge + 7 * testChar.speed < 100 →
      (testChar.update_atb 7).2.atb_gauge = testChar.atb_gauge + 7 * testChar.speed) ∧
    testChar.atb_gauge ≤ (testChar.update_atb 7).2.atb_gauge ∧
    (testChar.update_atb 7).2.atb_gauge ≤ 100 ∧
    ((testChar.update_atb 7).1 = true ↔ 100 ≤ testChar.atb_gauge + 7 * testChar.speed) :=
  update_atb_spec testChar 7 (by decide) (by decide) (by decide)

/-- C5: `calculate_damage` returns `power + 2 × casterMagic`, exactly doubled
when the spell's element matches the target's weakness case-insensitively
(both set, per Python truthiness); hence a matching call is exactly twice any
non-matching call with the same other inputs; concretely, the Fire spell
(power 20) at caster magic 18 yields 56 against a non-matching or absent
weakness and 112 against a matching one, case-insensitively. -/
theorem calculate_damage_spec (s : Spell) (m : Int) (w : Option String) :
    (weaknessMatch s.element w = false → s.calculate_damage m w = s.power + 2 * m) ∧
    (weaknessMatch s.element w = true → s.calculate_damage m w = 2 * (s.power + 2 * m)) ∧
    (weaknessMatch s.element w = true → ∀ w2, weaknessMatch s.element w2 = false →
      s.calculate_damage m w = 2 * s.calculate_damage m w2) ∧
    fireSpell.calculate_damage 18 (some "thunder") = 56 ∧
    fireSpell.calculate_damage 18 none = 56 ∧
    fireSpell.calculate_damage 18 (some "fire") = 112 ∧
    fireSpell.calculate_damage 18 (some "FIRE") = 112 := by
  refine ⟨?_, ?_, ?_, by decide, by decide, by decide, by decide⟩ <;>
    simp only [Spell.calculate_damage] <;> intro h
  · simp [h]; ring
  · simp [h]; ring
  · intro w2 h2
    simp [h, h2]; ring

/-- Witness for C5 at the Fire spell against an ice weakness. -/
theorem calculate_damage_spec_witness :
    (weaknessMatch fireSpell.element (some "ice") = false →
      fireSpell.calculate_damage 18 (some "ice") = fireSpell.power + 2 * 18) ∧
    (weaknessMatch fireSpell.element (some "ice") = true →
      fireSpell.calculate_damage 18 (some "ice") = 2 * (fireSpell.power + 2 * 18)) ∧
    (weaknessMatch fireSpell.element (some "ice") = true →
      ∀ w2, weaknessMatch fireSpell.element w2 = false →
        fireSpell.calculate_damage 18 (some "ice") = 2 * fireSpell.calculate_damage 18 w2) ∧
    fireSpell.calculate_damage 18 (some "thunder") = 56 ∧
    fireSpell.calculate_damage 18 none = 56 ∧
    fireSpell.calculate_damage 18 (some "fire") = 112 ∧
    fireSpell.calculate_damage 18 (some "FIRE") = 112 :=
  calculate_damage_spec fireSpell 18 (some "ice")

/-- C6: when both gauges reach 100 in the same tick (gauge + speed ≥ 100 on
both sides) and both sides attack physically, turns resolve in descending
speed order with the player first on ties: the first actor's gauge is reset,
the second combatant acts only if it survives the first action (if it dies it
deals no damage; if it survives, its attack lands and its gauge is reset). -/
theorem both_ready_order_spec (st : BattleState) (i : TurnInput)
    (hpr : 100 ≤ st.player.atb_gauge + st.player.speed)
    (her : 100 ≤ st.enemy.atb_gauge + st.enemy.speed)
    (hAct : i.pAct = .attack)
    (hRoll : i.eRoll = true) :
    (st.enemy.speed ≤ st.player.speed →
      (battle_step i st).player.atb_gauge = 0 ∧
      (st.enemy.hp - (st.player.strength + i.pBonus) ≤ 0 →
        (battle_step i st).player.hp = st.player.hp ∧
        (battle_step i st).enemy.hp = max 0 (st.enemy.hp - (st.player.strength + i.pBonus))) ∧
      (0 < st.enemy.hp - (st.player.strength + i.pBonus) →
        (battle_step i st).player.hp = max 0 (st.player.hp - (st.enemy.strength + i.eBonus)) ∧
        (battle_step i st).enemy.hp = st.enemy.hp - (st.player.strength + i.pBonus) ∧
        (battle_step i st).enemy.atb_gauge = 0)) ∧
    (st.player.speed < st.enemy.speed →
      (battle_step i st).enemy.atb_gauge = 0 ∧
      (st.player.hp - (st.enemy.strength + i.eBonus) ≤ 0 →
        (battle_step i st).enemy.hp = st.enemy.hp ∧
        (battle_step i st).player.hp = max 0 (st.player.hp - (st.enemy.strength + i.eBonus))) ∧
      (0 < st.player.hp - (st.enemy.strength + i.eBonus) →
        (battle_step i st).enemy.hp = max 0 (st.enemy.hp - (st.player.strength + i.pBonus)) ∧
        (battle_step i st).player.hp = st.player.hp - (st.enemy.strength + i.eBonus) ∧
        (battle_step i st).player.atb_gauge = 0)) := by
  have hp1 : st.player.update_atb 1 = (true, { st.player with atb_gauge := 100 }) := by
    simp only [Character.update_atb]
    rw [if_pos (by omega)]
  have he1 : st.enemy.update_atb 1 = (true, { st.enemy with atb_gauge := 100 }) := by
    simp only [Character.update_atb]
    rw [if_pos (by omega)]
  constructor
  · intro hsp
    simp only [battle_step, hp1, he1, execute_player_turn, execute_enemy_turn,
      player_attack, enemy_turn, hAct, hRoll, Character.take_damage,
      Character.reset_atb, Character.is_alive]
    rw [if_pos ⟨by omega, by omega⟩, if_pos (by simpa using hsp)]
    refine ⟨?_, ?_, ?_⟩
    · split <;> rfl
    · intro hdead
      rw [if_pos (by simp; omega)]
      simp
    · intro halive
      rw [if_neg (by simp; omega)]
      simp
      omega
  · intro hsp
    simp only [battle_step, hp1, he1, execute_player_turn, execute_enemy_turn,
      player_attack, enemy_turn, hAct, hRoll, Character.take_damage,
      Character.reset_atb, Character.is_alive]
    rw [if_pos ⟨by omega, by omega⟩, if_neg (by simpa using not_le.mpr hsp)]
    refine ⟨?_, ?_, ?_⟩
    · rcases le_or_lt st.player.hp (st.enemy.strength + i.eBonus) with h | h
      · rw [if_pos (by simp; omega)]
      · rw [if_neg (by simp; omega)]
    · intro hdead
      rw [if_pos (by simp; omega)]
      simp
    · intro halive
      rw [if_neg (by simp; omega)]
      simp
      omega

/-- The enemy of the spec's example scenario (the Magitek Factory fallback
stats). -/
def enemyChar : Character := Character.init "Magitek Armor" 80 20 15 12 8

/-- A both-ready pre-state: player gauge 90 at speed 12, enemy gauge 95 at
speed 8, so both cross 100 on the next tick. -/
def c6State : BattleState :=
  { player := { testChar with atb_gauge := 90 },
    enemy := { enemyChar with atb_gauge := 95 },
    turn_count := 0 }

/-- Oracle inputs making both sides attack physically with a zero random
bonus. -/
def atkInput : TurnInput :=
  { pAct := .attack, pBonus := 0, eRoll := true, eSpellIdx := 0, eBonus := 0 }

/-- Witness for C6 at a concrete both-ready state with both sides
attacking. -/
theorem both_ready_order_spec_witness :
    (c6State.enemy.speed ≤ c6State.player.speed →
      (battle_step atkInput c6State).player.atb_gauge = 0 ∧
      (c6State.enemy.hp - (c6State.player.strength + atkInput.pBonus) ≤ 0 →
        (battle_step atkInput c6State).player.hp = c6State.player.hp ∧
        (battle_step atkInput c6State).enemy.hp =
          max 0 (c6State.enemy.hp - (c6State.player.strength + atkInput.pBonus))) ∧
      (0 < c6State.enemy.hp - (c6State.player.strength + atkInput.pBonus) →
        (battle_step atkInput c6State).player.hp =
          max 0 (c6State.player.hp - (c6State.enemy.strength + atkInput.eBonus)) ∧
        (battle_step atkInput c6State).enemy.hp =
          c6State.enemy.hp - (c6State.player.strength + atkInput.pBonus) ∧
        (battle_step atkInput c6State).enemy.atb_gauge = 0)) ∧
    (c6State.player.speed < c6State.enemy.speed →
      (battle_step atkInput c6State).enemy.atb_gauge = 0 ∧
      (c6State.player.hp - (c6State.enemy.strength + atkInput.eBonus) ≤ 0 →
        (battle_step atkInput c6State).enemy.hp = c6State.enemy.hp ∧
        (battle_step atkInput c6State).player.hp =
          max 0 (c6State.player.hp - (c6State.enemy.strength + atkInput.eBonus))) ∧
      (0 < c6State.player.hp - (c6State.enemy.strength + atkInput.eBonus) →
        (battle_step atkInput c6State).enemy.hp =
          max 0 (c6State.enemy.hp - (c6State.player.strength + atkInput.pBonus)) ∧
        (battle_step atkInput c6State).player.hp =
          c6State.player.hp - (c6State.enemy.strength + atkInput.eBonus) ∧
        (battle_step atkInput c6State).player.atb_gauge = 0)) :=
  both_ready_order_spec c6State atkInput (by decide) (by decide) rfl rfl

/-- The player decisions that `execute_player_turn` treats as a no-op for a
player with the given mana: an unrecognized menu choice, a cancelled (or
empty, hence falsy) spell selection, an unknown spell key, or a spell the
player cannot afford. -/
def player_noop (mp : Int) : PlayerAction → Bool
  | .invalid => true
  | .magic none => true
  | .magic (some s) =>
    if s = "" then true
    else
      match SPELLS s with
      | none => true
      | some sp => decide (mp < sp.mp_cost)
  | _ => false

/-- A no-op player decision makes `execute_player_turn` report failure and
return the state completely unchanged. -/
theorem execute_player_turn_noop (i : TurnInput) (s : BattleState)
    (hnoop : player_noop s.player.mp i.pAct = true) :
    execute_player_turn i s = (false, s) := by
  cases h : i.pAct with
  | attack => rw [h] at hnoop; simp [player_noop] at hnoop
  | wait => rw [h] at hnoop; simp [player_noop] at hnoop
  | invalid => simp [execute_player_turn, h]
  | magic sc =>
    cases sc with
    | none => simp [execute_player_turn, h]
    | some sname =>
      rw [h] at hnoop
      simp only [player_noop] at hnoop
      by_cases he : sname = ""
      · simp [execute_player_turn, h, he]
      · rw [if_neg he] at hnoop
        cases hsp : SPELLS sname with
        | none => simp [execute_player_turn, h, he, player_magic, hsp]
        | some sp =>
          rw [hsp] at hnoop
          simp only [decide_eq_true_eq] at hnoop
          have hmp : s.player.use_mp sp.mp_cost = (false, s.player) := by
            simp only [Character.use_mp]
            rw [if_neg (by omega)]
          simp [execute_player_turn, h, he, player_magic, hsp, hmp]

/-- C7: when the player is ready and acts first (not ready together with a
strictly faster enemy) and the player's decision is a no-op (invalid choice,
cancelled/empty or unknown spell selection, or a cast refused for
insufficient mana), `execute_player_turn` reports failure with no state
change, and the whole loop iteration mutates nothing beyond the already
applied gauge tick: no gauge is reset, no combatant acts. -/
theorem noop_costs_no_turn (st : BattleState) (i : TurnInput)
    (hnoop : player_noop st.player.mp i.pAct = true)
    (hpready : 100 ≤ st.player.atb_gauge + st.player.speed)
    (hord : 100 ≤ st.enemy.atb_gauge + st.enemy.speed →
      st.enemy.speed ≤ st.player.speed) :
    execute_player_turn i
      { player := (st.player.update_atb 1).2, enemy := (st.enemy.update_atb 1).2,
        turn_count := st.turn_count + 1 } =
      (false,
        { player := (st.player.update_atb 1).2, enemy := (st.enemy.update_atb 1).2,
          turn_count := st.turn_count + 1 }) ∧
    battle_step i st =
      { player := (st.player.update_atb 1).2, enemy := (st.enemy.update_atb 1).2,
        turn_count := st.turn_count + 1 } := by
  have hp1 : st.player.update_atb 1 = (true, { st.player with atb_gauge := 100 }) := by
    simp only [Character.update_atb]
    rw [if_pos (by omega)]
  have hmp : (st.player.update_atb 1).2.mp = st.player.mp := by
    simp only [Character.update_atb]
    split <;> rfl
  constructor
  · refine execute_player_turn_noop i _ ?_
    show player_noop (st.player.update_atb 1).2.mp i.pAct = true
    rw [hmp]
    exact hnoop
  · by_cases her : 100 ≤ st.enemy.atb_gauge + st.enemy.speed
    · have he1 : st.enemy.update_atb 1 = (true, { st.enemy with atb_gauge := 100 }) := by
        simp only [Character.update_atb]
        rw [if_pos (by omega)]
      have hept : execute_player_turn i
          { player := { st.player with atb_gauge := 100 },
            enemy := { st.enemy with atb_gauge := 100 },
            turn_count := st.turn_count + 1 } =
          (false,
            { player := { st.player with atb_gauge := 100 },
              enemy := { st.enemy with atb_gauge := 100 },
              turn_count := st.turn_count + 1 }) :=
        execute_player_turn_noop i _ hnoop
      simp only [battle_step, hp1, he1]
      rw [if_pos ⟨by omega, by omega⟩, if_pos (by simpa using hord her), hept]
    · have he1 : st.enemy.update_atb 1 =
          (false, { st.enemy with atb_gauge := st.enemy.atb_gauge + 1 * st.enemy.speed }) := by
        simp only [Character.update_atb]
        rw [if_neg (by omega)]
      have hept : execute_player_turn i
          { player := { st.player with atb_gauge := 100 },
            enemy := { st.enemy with atb_gauge := st.enemy.atb_gauge + 1 * st.enemy.speed },
            turn_count := st.turn_count + 1 } =
          (false,
            { player := { st.player with atb_gauge := 100 },
              enemy := { st.enemy with atb_gauge := st.enemy.atb_gauge + 1 * st.enemy.speed },
              turn_count := st.turn_count + 1 }) :=
        execute_player_turn_noop i _ hnoop
      simp only [battle_step, hp1, he1]
      rw [if_neg (by rintro ⟨-, h2⟩; simp at h2; omega),
        if_pos (by omega), hept]

/-- A player-ready pre-state for the no-op witness: player gauge 95 at speed
12, enemy gauge 10 at speed 8 (not ready). -/
def c7State : BattleState :=
  { player := { testChar with atb_gauge := 95 },
    enemy := { enemyChar with atb_gauge := 10 },
    turn_count := 3 }

/-- Oracle inputs where the player cancels the spell menu. -/
def cancelInput : TurnInput :=
  { pAct := .magic none, pBonus := 0, eRoll := true, eSpellIdx := 0, eBonus := 0 }

/-- Witness for C7 at a concrete player-ready state with a cancelled spell
selection. -/
theorem noop_costs_no_turn_witness :
    execute_player_turn cancelInput
      { player := (c7State.player.update_atb 1).2,
        enemy := (c7State.enemy.update_atb 1).2,
        turn_count := c7State.turn_count + 1 } =
      (false,
        { player := (c7State.player.update_atb 1).2,
          enemy := (c7State.enemy.update_atb 1).2,
          turn_count := c7State.turn_count + 1 }) ∧
    battle_step cancelInput c7State =
      { player := (c7State.player.update_atb 1).2,
        enemy := (c7State.enemy.update_atb 1).2,
        turn_count := c7State.turn_count + 1 } :=
  noop_costs_no_turn c7State cancelInput (by decide) (by decide) (by decide)

/-- C8 counterexample: on the exception path with a biome absent from the
fallback table, `generate_enemy` returns the Magitek Factory descriptor, not
the generic Wild Beast descriptor the claim names as the default. -/
theorem generate_enemy_unknown_tag_cex :
    generate_enemy "Zozo" ApiOutcome.exn = magitek_armor ∧
    magitek_armor ≠ wild_beast := by
  constructor
  · rfl
  · decide

/-- C8 amended: every failure path substitutes the fallback descriptor keyed
by the biome; an unknown biome defaults to the generic Wild Beast descriptor
only on the no-API-key path, and to the Magitek Factory descriptor on the
exception and missing-field paths. -/
theorem generate_enemy_fallback_spec (biome : String) (api : ApiOutcome)
    (hfail : api_failed api = true) :
    generate_enemy biome api =
      (fallback_enemies biome).getD
        (if api = ApiOutcome.noModel then wild_beast else magitek_armor) := by
  cases api with
  | noModel => simp [generate_enemy]
  | exn => simp [generate_enemy]
  | parsed d =>
    simp only [api_failed, Option.isNone_iff_eq_none] at hfail
    simp [generate_enemy, hfail]

/-- Witness for the amended C8 at an unknown biome on the exception path. -/
theorem generate_enemy_fallback_spec_witness :
    generate_enemy "Zozo" ApiOutcome.exn =
      (fallback_enemies "Zozo").getD
        (if ApiOutcome.exn = ApiOutcome.noModel then wild_beast else magitek_armor) :=
  generate_enemy_fallback_spec "Zozo" ApiOutcome.exn (by decide)

/-- The example scenario's initial battle state: Terra (hp 100, mp 50,
str 16, mag 18, spd 12) versus the Magitek Armor stats (hp 80, mp 20,
str 15, mag 12, spd 8), both freshly constructed. -/
def c9Init : BattleState :=
  { player := testChar, enemy := enemyChar, turn_count := 0 }

/-- C9: with the random bonus fixed at 0 and both sides always attacking,
the battle loop terminates (within 45 iterations) with the player winning:
the enemy's 80 hp is exhausted (five 16-damage attacks), while the player
ends at `100 - 3 * 15` hp, having taken only 3 counter-attacks of 15 —
fewer than 5. -/
theorem scenario_battle_result :
    (battle_run (List.replicate 45 atkInput) c9Init).map
      (fun r => (r.1, r.2.player.hp, r.2.enemy.hp)) =
      some (true, 100 - 3 * 15, 0) := by
  decide

/-- C10: with zero speed, `update_atb` leaves a sub-100 gauge unchanged at
every tick and never reports ready; with both combatants at zero speed and
alive, `battle_run` never resolves an action and never terminates, whatever
oracle inputs are supplied. -/
theorem zero_speed_never_terminates (st : BattleState)
    (hps : st.player.speed = 0) (hes : st.enemy.speed = 0)
    (hpa : st.player.is_alive = true) (hea : st.enemy.is_alive = true)
    (hpg : st.player.atb_gauge < 100) (heg : st.enemy.atb_gauge < 100) :
    (∀ inc : Int, (st.player.update_atb inc).2.atb_gauge = st.player.atb_gauge ∧
      (st.player.update_atb inc).1 = false) ∧
    ∀ ins : List TurnInput, battle_run ins st = none := by
  have hup : ∀ c : Character, c.speed = 0 → c.atb_gauge < 100 →
      c.update_atb 1 = (false, c) := by
    intro c h0 hg
    simp only [Character.update_atb]
    rw [if_neg (by rw [h0]; omega)]
    have harith : c.atb_gauge + 1 * c.speed = c.atb_gauge := by rw [h0]; ring
    rw [harith]
  constructor
  · intro inc
    constructor
    · simp only [Character.update_atb]
      rw [if_neg (by rw [hps]; omega)]
      simp [hps]
    · simp only [Character.update_atb]
      rw [if_neg (by rw [hps]; omega)]
  · have hstep : ∀ (i : TurnInput) (tc : Int),
        battle_step i { player := st.player, enemy := st.enemy, turn_count := tc } =
          { player := st.player, enemy := st.enemy, turn_count := tc + 1 } := by
      intro i tc
      simp only [battle_step, hup st.player hps hpg, hup st.enemy hes heg]
      rw [if_neg (by rintro ⟨h1, -⟩; omega),
        if_neg (by intro h1; omega), if_neg (by intro h1; omega)]
    suffices h : ∀ (ins : List TurnInput) (tc : Int),
        battle_run ins { player := st.player, enemy := st.enemy, turn_count := tc } = none by
      intro ins
      have := h ins st.turn_count
      exact this
    intro ins
    induction ins with
    | nil => intro tc; simp [battle_run, hpa, hea]
    | cons i rest ih =>
      intro tc
      rw [battle_run, if_pos (by simp [hpa, hea]), hstep]
      exact ih (tc + 1)

/-- A zero-speed stalemate state for the C10 witness. -/
def c10State : BattleState :=
  { player := Character.init "A" 10 5 3 3 0,
    enemy := Character.init "B" 10 5 3 3 0,
    turn_count := 0 }

/-- Witness for C10 at a concrete zero-speed state. -/
theorem zero_speed_never_terminates_witness :
    (∀ inc : Int, (c10State.player.update_atb inc).2.atb_gauge =
        c10State.player.atb_gauge ∧
      (c10State.player.update_atb inc).1 = false) ∧
    ∀ ins : List TurnInput, battle_run ins c10State = none :=
  zero_speed_never_terminates c10State (by decide) (by decide) (by decide)
    (by decide) (by decide) (by decide)

end RpgEngine
